import Mathlib

/-!
Verification development for the steve-code action-orchestration and
context-budget subsystems.  Python sources are shallowly embedded as
executable Lean definitions; machine strings are `String`/`List Char`,
Python ints are `Int`/`Nat`, float percentages are modelled as `Rat`
(only sign and comparisons matter to the claims), and fallible Python
code returns `Except`.
-/

set_option maxHeartbeats 4000000
set_option maxRecDepth 100000

namespace SteveCode

/-! ## Generic character/string helpers (Python string semantics) -/

/-- Python `str.strip()` whitespace predicate (ASCII whitespace). -/
def pyWsChar (c : Char) : Bool :=
  c == ' ' || c == '\t' || c == '\n' || c == '\r' || c == '\x0b' || c == '\x0c'

/-- Python `str.strip()` on a character list: drop whitespace from both ends. -/
def stripChars (cs : List Char) : List Char :=
  ((cs.dropWhile pyWsChar).reverse.dropWhile pyWsChar).reverse

/-- Python `str.strip()`. -/
def pyStrip (s : String) : String := String.mk (stripChars s.toList)

/-- Split a character list at the first occurrence of `pat`
(`none` when `pat` does not occur).  Returns the part before the
occurrence and the part after it. -/
def splitAtFirst (pat : List Char) : List Char → Option (List Char × List Char)
  | [] => none
  | c :: cs =>
    if pat.isPrefixOf (c :: cs) then some ([], (c :: cs).drop pat.length)
    else (splitAtFirst pat cs).map (fun p => (c :: p.1, p.2))

/-- Fuelled model of Python `str.replace(pat, repl)`: replace every
(non-overlapping, left-to-right) occurrence.  With fuel `≥ length + 1`
this is total; exhausted fuel returns the rest unchanged. -/
def replaceAllF (repl pat : List Char) : Nat → List Char → List Char
  | 0, s => s
  | fuel + 1, s =>
    match s with
    | [] => []
    | c :: cs =>
      if pat ≠ [] ∧ pat.isPrefixOf (c :: cs) then
        repl ++ replaceAllF repl pat fuel ((c :: cs).drop pat.length)
      else c :: replaceAllF repl pat fuel cs

/-! ## ContextManager (`context_manager.py`)

Messages are dictionaries `{role, content}` where content is a string or
a list of text/image blocks.  `tiktoken` is an optional external
dependency; the counter modelled here is the repository's own
deterministic fallback `int(len(text) * 0.25)` (`count_tokens`,
context_manager.py lines 62-79). -/

inductive ContentBlock where
  | text (s : String)
  | image
  deriving DecidableEq, Repr

inductive MessageContent where
  | str (s : String)
  | blocks (bs : List ContentBlock)
  deriving DecidableEq, Repr

structure Message where
  role : String
  content : MessageContent
  deriving DecidableEq, Repr

/-- `ContextManager.count_tokens` (estimation branch):
`int(len(text) * 0.25)` = `len / 4` rounded toward zero. -/
def count_tokens (text : String) : Nat := text.length / 4

/-- Token estimate of one content block (context_manager.py lines 101-106):
text blocks are counted, an image is a flat 1000. -/
def blockTokens : ContentBlock → Nat
  | .text s => count_tokens s
  | .image => 1000

/-- Tokens of one message: flat overhead 4 plus content tokens
(context_manager.py lines 92-107). -/
def messageTokens (m : Message) : Nat :=
  4 + match m.content with
      | .str s => count_tokens s
      | .blocks bs => (bs.map blockTokens).sum

/-- `ContextManager.count_message_tokens`. -/
def count_message_tokens (messages : List Message) : Nat :=
  (messages.map messageTokens).sum

structure ContextStats where
  total_tokens : Nat
  max_tokens : Int
  remaining_tokens : Int
  usage_percentage : Rat
  message_count : Nat
  should_compact : Bool
  deriving DecidableEq, Repr

structure ContextManager where
  max_tokens : Int := 128000
  compact_threshold : Rat := 8 / 10
  warning_threshold : Rat := 7 / 10
  deriving DecidableEq, Repr

/-- `ContextManager.get_context_stats` (context_manager.py lines 110-130).
Python float division raises `ZeroDivisionError` when `max_tokens = 0`
and otherwise returns the (possibly negative) percentage; no further
validation of `max_tokens` exists anywhere in the class. -/
def get_context_stats (cm : ContextManager) (messages : List Message) :
    Except String ContextStats :=
  let total_tokens := count_message_tokens messages
  let remaining : Int := cm.max_tokens - total_tokens
  if cm.max_tokens = 0 then .error "ZeroDivisionError: division by zero"
  else
    let usage_pct : Rat := ((total_tokens : Rat) / (cm.max_tokens : Rat)) * 100
    .ok { total_tokens := total_tokens
          max_tokens := cm.max_tokens
          remaining_tokens := max 0 remaining
          usage_percentage := usage_pct
          message_count := messages.length
          should_compact := decide (usage_pct ≥ cm.compact_threshold * 100) }

/-- Truncation of an old message's content to 500 characters
(context_manager.py lines 173-175); Python slices by code points. -/
def truncateContent (s : String) : String :=
  if s.length > 500 then String.mk (s.toList.take 500) ++ "..." else s

/-- `messages[:-keep_recent]` (context_manager.py line 165).  For
`keep_recent = 0` the Python slice `[:-0]` is `[:0]`, i.e. empty. -/
def olderMessages (messages : List Message) (keep_recent : Nat) : List Message :=
  if keep_recent = 0 then [] else messages.take (messages.length - keep_recent)

/-- `messages[-keep_recent:]` (context_manager.py line 188).  For
`keep_recent = 0` the Python slice `[-0:]` is the whole list. -/
def recentMessages (messages : List Message) (keep_recent : Nat) : List Message :=
  if keep_recent = 0 then messages else messages.drop (messages.length - keep_recent)

/-- The system messages kept verbatim from any position
(context_manager.py lines 160-162). -/
def systemMessages (messages : List Message) : List Message :=
  messages.filter (fun m => m.role == "system")

/-- The `"<role>: <truncated content>"` lines summarising older
non-system messages (context_manager.py lines 168-176); non-string
(multimodal) content contributes no line. -/
def olderContentLines (messages : List Message) (keep_recent : Nat) : List String :=
  (olderMessages messages keep_recent).filterMap (fun m =>
    if m.role == "system" then none
    else match m.content with
         | .str s => some (m.role ++ ": " ++ truncateContent s)
         | .blocks _ => none)

/-- The synthetic summary content string (context_manager.py lines 179-184).
`len(older_content) - 5` is a Python int and may be negative. -/
def summaryText (messages : List Message) (keep_recent : Nat) : String :=
  "[Previous conversation summary - " ++
    toString (olderMessages messages keep_recent).length ++ " messages]\n" ++
    String.intercalate "\n" ((olderContentLines messages keep_recent).take 5) ++
    "\n... and " ++ toString ((olderContentLines messages keep_recent).length - 5 : Int) ++
    " more messages"

/-- The zero-or-one-element list holding the synthetic summary message
(context_manager.py lines 178-185). -/
def summaryMessages (messages : List Message) (keep_recent : Nat) : List Message :=
  if olderContentLines messages keep_recent ≠ [] then
    [{ role := "system", content := .str (summaryText messages keep_recent) }]
  else []

/-- `ContextManager.compact_messages` (context_manager.py lines 143-190). -/
def compact_messages (messages : List Message) (keep_recent : Nat := 10) : List Message :=
  if messages.length ≤ keep_recent then messages
  else
    systemMessages messages ++ summaryMessages messages keep_recent ++
      recentMessages messages keep_recent

/-! ## XML model (`xml.etree.ElementTree` as used by the parser)

A small recursive-descent parser for the XML feature subset exercised by
the repository's action markup: nested elements, attributes, character
data, the five named entities, and CDATA sections.  Anything else is a
parse error, as in `ET.fromstring`.  As in ElementTree, an element whose
character data before the first child is empty has `text = none`. -/

def xmlWs (c : Char) : Bool := c == ' ' || c == '\t' || c == '\n' || c == '\r'

def nameChar (c : Char) : Bool :=
  c.isAlphanum || c == '_' || c == '-' || c == '.' || c == ':'

def textChar (c : Char) : Bool := !(c == '<' || c == '&')

structure XElem where
  tag : String
  attrs : List (String × String)
  text : Option String
  children : List XElem

def XElem.getAttr (e : XElem) (k : String) : Option String :=
  (e.attrs.find? (fun p => p.1 == k)).map (fun p => p.2)

def XElem.findChild (e : XElem) (t : String) : Option XElem :=
  e.children.find? (fun c => c.tag == t)

def entityChar (nm : List Char) : Option Char :=
  if nm = "lt".toList then some '<'
  else if nm = "gt".toList then some '>'
  else if nm = "amp".toList then some '&'
  else if nm = "quot".toList then some '"'
  else if nm = "apos".toList then some (Char.ofNat 39)
  else none

def parseEntity (cs : List Char) : Option (Char × List Char) :=
  let en := cs.takeWhile (fun c => c != ';')
  match cs.drop en.length with
  | ';' :: rest => (entityChar en).map (fun ch => (ch, rest))
  | _ => none

mutual

/-- Start tag: element name, then attributes. -/
def parseElem : Nat → List Char → Except String (XElem × List Char)
  | 0, _ => .error "internal fuel exhausted"
  | fuel + 1, cs =>
    match cs with
    | '<' :: rest =>
      let nm := rest.takeWhile nameChar
      if nm = [] then .error "expected element name"
      else parseAttrs fuel (String.mk nm) [] (rest.drop nm.length)
    | _ => .error "expected element"

/-- Attribute list of a start tag, then dispatch to the element body. -/
def parseAttrs : Nat → String → List (String × String) → List Char →
    Except String (XElem × List Char)
  | 0, _, _, _ => .error "internal fuel exhausted"
  | fuel + 1, tag, attrs, cs =>
    let cs1 := cs.dropWhile xmlWs
    match cs1 with
    | '>' :: rest => parseBody fuel tag attrs [] [] rest
    | '/' :: '>' :: rest => .ok (⟨tag, attrs, none, []⟩, rest)
    | c :: _ =>
      if nameChar c then
        let an := cs1.takeWhile nameChar
        let r1 := (cs1.drop an.length).dropWhile xmlWs
        match r1 with
        | '=' :: r2 =>
          let r3 := r2.dropWhile xmlWs
          match r3 with
          | q :: r4 =>
            if q == '"' || q == Char.ofNat 39 then
              let v := r4.takeWhile (fun ch => ch != q)
              if v.any (fun ch => ch == '<' || ch == '&') then
                .error "bad attribute value"
              else
                match r4.drop v.length with
                | _ :: r6 => parseAttrs fuel tag (attrs ++ [(String.mk an, String.mk v)]) r6
                | [] => .error "unterminated attribute value"
            else .error "expected quote"
          | [] => .error "expected attribute value"
        | _ => .error "expected equals sign"
      else .error "bad start tag"
    | [] => .error "unterminated start tag"

/-- Element body: character data (with entities and CDATA) and child
elements up to the matching close tag.  `text` is the character data
before the first child, `none` when empty; character data after a child
(tail text) is consumed and validated but not retained, since the
embedded code never reads it. -/
def parseBody : Nat → String → List (String × String) → List Char → List XElem →
    List Char → Except String (XElem × List Char)
  | 0, _, _, _, _, _ => .error "internal fuel exhausted"
  | fuel + 1, tag, attrs, textAcc, children, cs =>
    let run := cs.takeWhile textChar
    let tAcc := if children.isEmpty then textAcc ++ run else textAcc
    match cs.drop run.length with
    | [] => .error "unclosed element"
    | '&' :: r =>
      match parseEntity r with
      | some (ch, r2) =>
        parseBody fuel tag attrs (if children.isEmpty then tAcc ++ [ch] else tAcc) children r2
      | none => .error "bad entity reference"
    | '<' :: '/' :: r =>
      let nm := r.takeWhile nameChar
      match (r.drop nm.length).dropWhile xmlWs with
      | '>' :: r2 =>
        if String.mk nm == tag then
          .ok (⟨tag, attrs, if tAcc = [] then none else some (String.mk tAcc), children⟩, r2)
        else .error "mismatched tag"
      | _ => .error "bad close tag"
    | '<' :: '!' :: r =>
      if "[CDATA[".toList.isPrefixOf r then
        match splitAtFirst "]]>".toList (r.drop 7) with
        | some (cd, r2) =>
          parseBody fuel tag attrs (if children.isEmpty then tAcc ++ cd else tAcc) children r2
        | none => .error "unterminated CDATA section"
      else .error "unsupported markup"
    | '<' :: r =>
      match parseElem fuel ('<' :: r) with
      | .ok (child, r2) => parseBody fuel tag attrs tAcc (children ++ [child]) r2
      | .error e => .error e
    | _ :: _ => .error "unreachable text"

end

/-- Model of `xml.etree.ElementTree.fromstring`: one root element with
optional surrounding whitespace; trailing junk is a parse error. -/
def ET_fromstring (cs : List Char) : Except String XElem :=
  match parseElem (2 * cs.length + 100) (cs.dropWhile xmlWs) with
  | .error e => .error e
  | .ok (root, rest) =>
    if rest.dropWhile xmlWs = [] then .ok root else .error "junk after document element"

/-! ## StructuredActionParser (`structured_action_parser.py`) -/

inductive PyErr where
  | nameError (nm : String)
  | attributeError (msg : String)
  deriving DecidableEq, Repr

inductive SContent where
  | command (command : Option String)
  | file (path : Option String) (content : String)
  deriving DecidableEq, Repr

structure StructuredAction where
  action_type : String
  description : Option String
  content : SContent
  deriving DecidableEq, Repr

/-- One `<action>` element (structured_action_parser.py lines 52-74).
When the description element exists its (possibly `None`) text is
stored; when absent the description is `""`.  An empty `<content>`
element has `text = None` in ElementTree, so `content_elem.text.strip()`
raises `AttributeError`, which nothing catches. -/
def walkAction (elem : XElem) : Except PyErr (Option StructuredAction) :=
  let description :=
    match elem.findChild "description" with
    | some d => d.text
    | none => some ""
  match elem.getAttr "type" with
  | some "command" =>
    match elem.findChild "command" with
    | some c => .ok (some ⟨"command", description, .command c.text⟩)
    | none => .ok none
  | some "file" =>
    match elem.findChild "path", elem.findChild "content" with
    | some p, some c =>
      match c.text with
      | some t => .ok (some ⟨"file", description, .file p.text (pyStrip t)⟩)
      | none => .error (.attributeError "NoneType object has no attribute strip")
    | _, _ => .ok none
  | _ => .ok none

def walkActionList : List XElem → Except PyErr (List StructuredAction)
  | [] => .ok []
  | e :: es =>
    match walkAction e with
    | .error er => .error er
    | .ok oa =>
      match walkActionList es with
      | .error er => .error er
      | .ok rest => .ok (oa.toList ++ rest)

/-- `root.findall('action')` and the per-action loop, in document order. -/
def walkActions (root : XElem) : Except PyErr (List StructuredAction) :=
  walkActionList (root.children.filter (fun c => c.tag == "action"))

def openTag : List Char := "<actions>".toList

def closeTag : List Char := "</actions>".toList

/-- Model of `re.finditer(action_pattern, response)` with the DOTALL
pattern from structured_action_parser.py line 25: the list of
(whole match, inner group) pairs, scanning left to right with non-greedy
inner content (each opener pairs with the first closer after it). -/
def findBlocks : Nat → List Char → List (List Char × List Char)
  | 0, _ => []
  | fuel + 1, cs =>
    match splitAtFirst openTag cs with
    | none => []
    | some (_, afterOpen) =>
      match splitAtFirst closeTag afterOpen with
      | none => []
      | some (inner, afterClose) =>
        (openTag ++ inner ++ closeTag, inner) :: findBlocks fuel afterClose

def placeholderText : String := "[Actions hidden - see action queue below]"

/-- The per-block loop of `StructuredActionParser.extract_actions`
(structured_action_parser.py lines 46-81): a block whose XML parses
contributes its actions and every occurrence of its matched text is
replaced by the placeholder note (`str.replace`); a block raising
`ET.ParseError` is skipped (`continue`) without touching the remaining
text; an `AttributeError` from the action walk propagates. -/
def processBlocks : List (List Char × List Char) → List StructuredAction × List Char →
    Except PyErr (List StructuredAction × List Char)
  | [], st => .ok st
  | (g0, g1) :: ms, st =>
    match ET_fromstring (openTag ++ g1 ++ closeTag) with
    | .error _ => processBlocks ms st
    | .ok root =>
      match walkActions root with
      | .error e => .error e
      | .ok acts =>
        processBlocks ms
          (st.1 ++ acts, replaceAllF placeholderText.toList g0 (st.2.length + 1) st.2)

/-- `StructuredActionParser.extract_actions` on character lists: with no
match the response is returned unchanged; otherwise the processed
remainder is finally stripped. -/
def extractActionsCore (cs : List Char) : Except PyErr (List StructuredAction × List Char) :=
  match findBlocks (cs.length + 1) cs with
  | [] => .ok ([], cs)
  | m :: ms =>
    match processBlocks (m :: ms) ([], cs) with
    | .error e => .error e
    | .ok (acts, rem) => .ok (acts, stripChars rem)

/-- `StructuredActionParser.extract_actions`
(structured_action_parser.py lines 27-83). -/
def extract_actions (response : String) : Except PyErr (List StructuredAction × String) :=
  match extractActionsCore response.toList with
  | .error e => .error e
  | .ok (acts, rem) => .ok (acts, String.mk rem)

/-- Does a matched block's inner XML parse?  Mirrors whether
`ET.fromstring(f"<actions>{match.group(1)}</actions>")` succeeds
(structured_action_parser.py line 50). -/
def blockParses (m : List Char × List Char) : Bool :=
  match ET_fromstring (openTag ++ m.2 ++ closeTag) with
  | .ok _ => true
  | .error _ => false

/-- Specification side of the replacement-semantics refinement theorem:
the matched texts (regex group 0) of exactly those blocks whose inner
XML parses successfully, in match order. -/
def parsedGroups (ms : List (List Char × List Char)) : List (List Char) :=
  (ms.filter blockParses).map (fun m => m.1)

/-- Specification side of the replacement-semantics refinement theorem:
apply, in order, one all-occurrence placeholder replacement per
successfully parsed block to the remaining text (the effect of
`remaining_response.replace(match.group(0), ...)` on line 77, performed
only for blocks that parsed). -/
def applyReplacements (rem : List Char) : List (List Char) → List Char
  | [] => rem
  | g :: gs =>
    applyReplacements (replaceAllF placeholderText.toList g (rem.length + 1) rem) gs

/-! ## CodeExtractor (`code_extractor.py`) -/

def wordChar (c : Char) : Bool := c.isAlphanum || c == '_'

def fenceChars : List Char := "```".toList

/-- Model of `CodeExtractor.CODE_BLOCK_PATTERN.finditer`
(code_extractor.py lines 22-25): three backticks, an optional
word-character language, a whitespace run that must contain a newline
(consumed through its last newline, per greedy whitespace with
backtracking before the required newline), then non-greedy content up to
the next three backticks.  On a failed candidate the scan resumes one
character after the candidate's start, as the regex engine does. -/
def findCodeBlocks : Nat → List Char → List (List Char × List Char)
  | 0, _ => []
  | fuel + 1, cs =>
    match splitAtFirst fenceChars cs with
    | none => []
    | some (_, r1) =>
      let lang := r1.takeWhile wordChar
      let r2 := r1.drop lang.length
      let wsRun := r2.takeWhile pyWsChar
      let tailNoNl := wsRun.reverse.takeWhile (fun c => c != '\n')
      if wsRun.length = tailNoNl.length then
        findCodeBlocks fuel ("``".toList ++ r1)
      else
        let r3 := r2.drop (wsRun.length - tailNoNl.length)
        match splitAtFirst fenceChars r3 with
        | none => []
        | some (code, after) => (lang, code) :: findCodeBlocks fuel after

def lowerEq (a b : Char) : Bool := a.toLower == b.toLower

def matchCI (pat : List Char) (cs : List Char) : Bool :=
  decide (pat.length ≤ cs.length) && (List.zip pat cs).all (fun p => lowerEq p.1 p.2)

def fnChar (c : Char) : Bool := wordChar c || c == '-' || c == '.' || c == '/'

/-- `CodeExtractor.FILENAME_PATTERN` (code_extractor.py lines 28-31)
anchored at the head of `cs`: hash, whitespace, `filename`/`file`
(case-insensitive; when `filename` prefix-matches, the `file`
alternative can never be followed by the required colon, so trying
`filename` first is exact), colon, whitespace, then a nonempty run of
word, dash, dot or slash characters.  Returns the filename and the
number of characters matched. -/
def matchFilenameAt (cs : List Char) : Option (List Char × Nat) :=
  match cs with
  | '#' :: r1 =>
    let ws1 := r1.takeWhile pyWsChar
    let r2 := r1.drop ws1.length
    let kwLen := if matchCI "filename".toList r2 then some 8
                 else if matchCI "file".toList r2 then some 4
                 else none
    match kwLen with
    | none => none
    | some k =>
      match r2.drop k with
      | ':' :: r3 =>
        let ws2 := r3.takeWhile pyWsChar
        let r4 := r3.drop ws2.length
        let nm := r4.takeWhile fnChar
        if nm = [] then none
        else some (nm, 1 + ws1.length + k + 1 + ws2.length + nm.length)
      | _ => none
  | _ => none

/-- `FILENAME_PATTERN.search(content)`: first match anywhere. -/
def filenameSearch : Nat → List Char → Option (List Char)
  | 0, _ => none
  | _, [] => none
  | fuel + 1, c :: cs =>
    match matchFilenameAt (c :: cs) with
    | some (nm, _) => some nm
    | none => filenameSearch fuel cs

/-- `FILENAME_PATTERN.sub('', content)`: remove every match. -/
def filenameSubAll : Nat → List Char → List Char
  | 0, s => s
  | _, [] => []
  | fuel + 1, c :: cs =>
    match matchFilenameAt (c :: cs) with
    | some (_, len) => filenameSubAll fuel ((c :: cs).drop len)
    | none => c :: filenameSubAll fuel cs

structure CodeBlock where
  language : String
  content : String
  filename : Option String := none
  line_number : Option Nat := none
  deriving DecidableEq, Repr

/-- `CodeExtractor.extract_code_blocks` (code_extractor.py lines 33-62).
An absent language group means `'text'`.  A block containing a filename
comment has the comment removed and the content stripped.  Note:
`line_number` is never assigned anywhere, so every block carries
`line_number = none`. -/
def extract_code_blocks (text : String) : List CodeBlock :=
  (findCodeBlocks (text.toList.length + 1) text.toList).map (fun m =>
    let language := if m.1 = [] then "text" else String.mk m.1
    match filenameSearch (m.2.length + 1) m.2 with
    | some nm =>
      { language := language
        content := String.mk (stripChars (filenameSubAll (m.2.length + 1) m.2))
        filename := some (String.mk nm), line_number := none }
    | none => { language := language, content := String.mk m.2, line_number := none })

/-! ## ActionExecutor (`action_executor.py`) -/

structure FileAction where
  action_type : String
  file_path : String
  content : Option String := none
  language : Option String := none
  deriving DecidableEq, Repr

structure CommandAction where
  command : String
  description : Option String := none
  working_dir : Option String := none
  deriving DecidableEq, Repr

/-- `ActionExecutor.extract_actions_from_response` (action_executor.py
lines 49-213).  The module never defines or imports a global `logger`,
yet lines 65-68 call `logger.debug(...)` on both branches before any
action matching happens, so every call raises
`NameError: name 'logger' is not defined`.  The code-block extraction on
line 62 is the only computation that precedes the fault. -/
def extract_actions_from_response (response : String) :
    Except PyErr (List FileAction × List CommandAction) :=
  let _code_blocks := extract_code_blocks response
  .error (.nameError "logger")

/-- Arguments of a `subprocess.run` invocation (the process-spawning
boundary; semantics modelled from the Python standard library). -/
structure SubprocessCall where
  args : String
  shell : Bool
  capture_output : Bool
  text : Bool
  timeout : Option Nat
  deriving DecidableEq, Repr

/-- Observable behaviour of the host command: how long it runs and what
it produces (environment model of the shell collaborator). -/
structure CommandBehavior where
  runtime : Nat
  exitcode : Int
  stdout : String
  stderr : String
  deriving DecidableEq, Repr

inductive CmdOutcome where
  | completed (returncode : Int) (stdout stderr : String)
  | timedOut
  deriving DecidableEq, Repr

/-- `subprocess.run` semantics: `TimeoutExpired` exactly when a timeout
argument was passed and the command runs longer than it. -/
def runCall (call : SubprocessCall) (beh : CommandBehavior) : CmdOutcome :=
  match call.timeout with
  | some t => if t < beh.runtime then .timedOut
              else .completed beh.exitcode beh.stdout beh.stderr
  | none => .completed beh.exitcode beh.stdout beh.stderr

/-- The `subprocess.run` invocation made by `ActionExecutor.execute_command`
(action_executor.py lines 267-273): `shell=True`, output captured, and no
`timeout` argument at all. -/
def execute_command_call (c : CommandAction) : SubprocessCall :=
  { args := c.command, shell := true, capture_output := true, text := true,
    timeout := none }

/-- `ActionExecutor.execute_command` result (action_executor.py lines
254-287): success iff return code 0; any exception is caught and yields
`False`. -/
def execute_command (c : CommandAction) (beh : CommandBehavior) : Bool :=
  match runCall (execute_command_call c) beh with
  | .completed code _ _ => code == 0
  | .timedOut => false

/-- The `subprocess.run` invocation made by the separate manual-bash path
`InteractiveSession._execute_bash` (interactive.py lines 1804-1811) —
the only spawn in the repository that passes a 30-second timeout. -/
def execute_bash_call (command : String) : SubprocessCall :=
  { args := command, shell := true, capture_output := true, text := true,
    timeout := some 30 }

/-- Filesystem state: files as a path-to-content map and the set of
directories that exist. -/
structure FSState where
  files : List (String × String)
  dirs : List String
  deriving DecidableEq, Repr

/-- `open(path, 'w').write(content)`: full overwrite. -/
def writeFile (st : FSState) (p c : String) : FSState :=
  { st with files := (p, c) :: st.files.filter (fun kv => !(kv.1 == p)) }

def lookupFile (st : FSState) (p : String) : Option String :=
  (st.files.find? (fun kv => kv.1 == p)).map (fun kv => kv.2)

/-- `Path(p).parent` for slash-separated relative paths. -/
def parentDir (p : String) : String :=
  let parts := p.splitOn "/"
  if parts.length ≤ 1 then "." else String.intercalate "/" parts.dropLast

/-- `Path(p).relative_to(root)` succeeds exactly when `p` lies under
`root` (slash-separated model). -/
def isRelativeTo (root p : String) : Bool :=
  p == root || (root ++ "/").toList.isPrefixOf p.toList

/-- `ActionExecutor.execute_file_action` (action_executor.py lines
289-324): `create` makes the parent directory (`mkdir(parents=True)`)
and writes the content (full overwrite); the `relative_to` display
computation raises `ValueError` for a path outside the root, which the
`except` clause turns into `False` — after the write.  `modify` and
`delete` are unimplemented `pass` bodies (lines 311-317) falling through
to `return False` with no filesystem effect. -/
def execute_file_action (root : String) (action : FileAction) (st : FSState) :
    Bool × FSState :=
  if action.action_type == "create" then
    let st1 : FSState := { st with dirs := parentDir action.file_path :: st.dirs }
    let st2 := writeFile st1 action.file_path (action.content.getD "")
    if isRelativeTo root action.file_path then (true, st2) else (false, st2)
  else (false, st)

/-! ## Action todo queue (`interactive.py`, `structured_output.py`) -/

inductive ActionPayload where
  | command (c : CommandAction)
  | file (f : FileAction)
  deriving DecidableEq, Repr

/-- The `metadata` dictionary `{'type': ..., 'action': ...}` attached by
`ActionExecutor.actions_to_todos`. -/
structure TodoMeta where
  type : String
  action : ActionPayload
  deriving DecidableEq, Repr

/-- `structured_output.TodoItem` (structured_output.py lines 45-53). -/
structure TodoItem where
  id : String
  content : String
  status : String := "pending"
  priority : String := "medium"
  metadata : Option TodoMeta := none
  result : Option String := none
  error : Option String := none
  deriving DecidableEq, Repr

/-- Environment of one `_execute_action_todo` call: the user's answer to
the file-creation confirmation, the executor outcomes, and whether the
`try` body raises an unexpected exception (caught at interactive.py
line 1972). -/
structure ExecEnv where
  confirm : Bool
  commandSuccess : Bool
  fileSuccess : Bool
  raises : Option String := none
  deriving DecidableEq, Repr

/-- Terminal status update at interactive.py lines 1967-1970. -/
def finalizeTodo (t : TodoItem) (success : Bool) : TodoItem :=
  if success then { t with status := "completed" }
  else { t with status := "failed",
                error := if t.error = none then some "Execution failed" else t.error }

/-- `InteractiveSession._execute_action_todo` (interactive.py lines
1922-1984), returning the updated item together with the trace of status
values written to it, in order.  A non-pending item is returned
unchanged (line 1924).  A pending item is first set `in_progress`
(line 1929, with a queue re-display); declining the file-creation
confirmation then sets it back to `pending` (line 1964). -/
def execute_action_todo (env : ExecEnv) (todo : TodoItem) : TodoItem × List String :=
  if todo.status != "pending" then (todo, [])
  else
    let t1 : TodoItem := { todo with status := "in_progress" }
    let final : TodoItem :=
      match env.raises with
      | some msg => { t1 with status := "failed", error := some msg }
      | none =>
        match t1.metadata with
        | some meta =>
          if meta.type == "command" then finalizeTodo t1 env.commandSuccess
          else if meta.type == "file" then
            if env.confirm then finalizeTodo t1 env.fileSuccess
            else { t1 with status := "pending" }
          else finalizeTodo t1 false
        | none => finalizeTodo t1 false
    (final, ["in_progress", final.status])

/-- `InteractiveSession._skip_next_action_todo` (interactive.py lines
2012-2021): the first pending item becomes completed with
result "Skipped by user"; everything else is untouched. -/
def skipFirstPending : List TodoItem → List TodoItem
  | [] => []
  | t :: ts =>
    if t.status == "pending" then
      { t with status := "completed", result := some "Skipped by user" } :: ts
    else t :: skipFirstPending ts

/-! ## Helper lemmas -/

/-- The per-block loop only ever edits the remaining text by one
all-occurrence placeholder replacement per successfully parsed block:
whenever `processBlocks` returns, the returned remaining text is
`applyReplacements` of the starting remaining text over the parsed
matches. -/
theorem parsedGroups_cons_false (m : List Char × List Char)
    (ms : List (List Char × List Char)) (h : blockParses m = false) :
    parsedGroups (m :: ms) = parsedGroups ms := by
  simp [parsedGroups, List.filter_cons, h]

theorem parsedGroups_cons_true (m : List Char × List Char)
    (ms : List (List Char × List Char)) (h : blockParses m = true) :
    parsedGroups (m :: ms) = m.1 :: parsedGroups ms := by
  simp [parsedGroups, List.filter_cons, h]

theorem processBlocks_remaining (ms : List (List Char × List Char))
    (st : List StructuredAction × List Char) (acts : List StructuredAction)
    (rem : List Char) (h : processBlocks ms st = .ok (acts, rem)) :
    rem = applyReplacements st.2 (parsedGroups ms) := by
  induction ms generalizing st with
  | nil =>
    rw [processBlocks] at h
    cases h
    simp [parsedGroups, applyReplacements]
  | cons m ms ih =>
    obtain ⟨g0, g1⟩ := m
    cases hp : ET_fromstring (openTag ++ g1 ++ closeTag) with
    | error e =>
      have hbp : blockParses (g0, g1) = false := by
        rw [blockParses]
        dsimp only
        rw [hp]
      rw [processBlocks, hp] at h
      dsimp only at h
      rw [ih st h, parsedGroups_cons_false _ _ hbp]
    | ok root =>
      have hbp : blockParses (g0, g1) = true := by
        rw [blockParses]
        dsimp only
        rw [hp]
      rw [processBlocks, hp] at h
      dsimp only at h
      cases hw : walkActions root with
      | error e =>
        rw [hw] at h
        dsimp only at h
        exact absurd h (by simp)
      | ok a2 =>
        rw [hw] at h
        dsimp only at h
        rw [ih (st.1 ++ a2,
          replaceAllF placeholderText.toList g0 (st.2.length + 1) st.2) h,
          parsedGroups_cons_true _ _ hbp, applyReplacements]

/-- When no matched block parses, the per-block loop is an identity on
its state: no actions and no replacements. -/
theorem processBlocks_all_malformed (ms : List (List Char × List Char))
    (st : List StructuredAction × List Char)
    (h : ∀ m ∈ ms, blockParses m = false) :
    processBlocks ms st = .ok st := by
  induction ms generalizing st with
  | nil => rfl
  | cons m ms ih =>
    obtain ⟨g0, g1⟩ := m
    have hm := h (g0, g1) (List.mem_cons_self _ _)
    rw [blockParses] at hm
    cases hp : ET_fromstring (openTag ++ g1 ++ closeTag) with
    | error e =>
      rw [processBlocks, hp]
      exact ih st (fun x hx => h x (List.mem_cons_of_mem _ hx))
    | ok root =>
      rw [hp] at hm
      simp at hm

theorem count_message_tokens_append (a b : List Message) :
    count_message_tokens (a ++ b) = count_message_tokens a + count_message_tokens b := by
  simp [count_message_tokens]

theorem count_message_tokens_filter_partition (p : Message → Bool) (l : List Message) :
    count_message_tokens (l.filter p) +
      count_message_tokens (l.filter (fun m => !(p m))) = count_message_tokens l := by
  induction l with
  | nil => simp [count_message_tokens]
  | cons m l ih =>
    cases h : p m <;>
      simp only [count_message_tokens, List.filter_cons, h, Bool.not_true, Bool.not_false,
        if_pos, if_neg, List.map_cons, List.sum_cons, Bool.false_eq_true, ite_false,
        ite_true, not_false_eq_true] at ih ⊢ <;> omega

theorem older_append_recent (messages : List Message) (k : Nat) (hk : k ≠ 0) :
    olderMessages messages k ++ recentMessages messages k = messages := by
  simp [olderMessages, recentMessages, hk, List.take_append_drop]

/-! ## Claim theorems -/

/-- C5 counterexample: eleven two-character messages with
`keep_recent = 10`.  The single older message is summarised by a
synthetic system message that is far longer than the message it
replaces, so the compacted list's token count (63) strictly exceeds the
input's (44): the claimed strict decrease is false. -/
theorem compact_messages_not_always_smaller :
    10 < (({ role := "user", content := .str "hi" } : Message) ::
        List.replicate 10 ({ role := "user", content := .str "hi" } : Message)).length ∧
    ¬ (count_message_tokens (compact_messages
        (({ role := "user", content := .str "hi" } : Message) ::
          List.replicate 10 ({ role := "user", content := .str "hi" } : Message)) 10) <
      count_message_tokens
        (({ role := "user", content := .str "hi" } : Message) ::
          List.replicate 10 ({ role := "user", content := .str "hi" } : Message))) := by
  constructor
  · decide
  · decide

/-- C5 (amended): for a message list longer than `keep_recent`
(`keep_recent ≥ 1`), compaction strictly decreases the token count as
computed by `count_message_tokens` precisely when the dropped older
non-system messages outweigh what compaction adds, namely the synthetic
summary message and the duplicated system messages of the recent tail;
the last `keep_recent` messages are kept verbatim by construction
(`recentMessages`). -/
theorem compact_messages_token_decrease (messages : List Message) (keep_recent : Nat)
    (hk : keep_recent ≠ 0) (hlen : keep_recent < messages.length)
    (hgap : count_message_tokens (summaryMessages messages keep_recent) +
        count_message_tokens ((recentMessages messages keep_recent).filter
          (fun m => m.role == "system")) <
        count_message_tokens ((olderMessages messages keep_recent).filter
          (fun m => !(m.role == "system")))) :
    count_message_tokens (compact_messages messages keep_recent) <
      count_message_tokens messages := by
  have hsplit := older_append_recent messages keep_recent hk
  have hpartO := count_message_tokens_filter_partition (fun m => m.role == "system")
      (olderMessages messages keep_recent)
  have hsys : systemMessages messages =
      systemMessages (olderMessages messages keep_recent) ++
        systemMessages (recentMessages messages keep_recent) := by
    conv_lhs => rw [← hsplit]
    simp [systemMessages, List.filter_append]
  have hmsg : count_message_tokens messages =
      count_message_tokens (olderMessages messages keep_recent) +
        count_message_tokens (recentMessages messages keep_recent) := by
    conv_lhs => rw [← hsplit]
    exact count_message_tokens_append _ _
  rw [compact_messages, if_neg (by omega)]
  rw [count_message_tokens_append, count_message_tokens_append, hsys,
    count_message_tokens_append]
  simp only [systemMessages] at *
  omega

/-- Witness for the amended C5 theorem: one long (800-character) older
user message followed by ten short recent ones. -/
theorem compact_messages_token_decrease_witness :
    count_message_tokens (compact_messages
      (({ role := "user", content := .str (String.mk (List.replicate 800 'a')) } : Message) ::
        List.replicate 10 ({ role := "user", content := .str "hi" } : Message)) 10) <
      count_message_tokens
      (({ role := "user", content := .str (String.mk (List.replicate 800 'a')) } : Message) ::
        List.replicate 10 ({ role := "user", content := .str "hi" } : Message)) :=
  compact_messages_token_decrease _ 10 (by decide) (by decide) (by decide)

/-- C9 counterexample: a manager configured with `max_tokens = -1000`
happily returns a `ContextStats` with a negative usage percentage for a
nonempty message list — no precondition error is raised anywhere. -/
theorem get_context_stats_negative_max_cex :
    ∃ s, get_context_stats { max_tokens := -1000 }
        [{ role := "user", content := .str "hello" }] = .ok s ∧
      s.usage_percentage = -(1/2) ∧ s.usage_percentage < 0 := by
  have h5 : count_message_tokens [{ role := "user", content := .str "hello" }] = 5 := rfl
  refine ⟨_, rfl, ?_, ?_⟩ <;>
    · dsimp only
      rw [h5]
      norm_num

/-- C9 (amended): the budget manager performs no validation of
`max_tokens`.  With `max_tokens < 0` and any message list with a
positive token count, `get_context_stats` returns normally and the
returned usage percentage is negative (nonsensical) instead of any
precondition failure; only `max_tokens = 0` faults, and then merely with
a `ZeroDivisionError` at stats time. -/
theorem get_context_stats_no_validation (cm : ContextManager) (messages : List Message)
    (hneg : cm.max_tokens < 0) (hpos : 0 < count_message_tokens messages) :
    ∃ s, get_context_stats cm messages = .ok s ∧ s.usage_percentage < 0 := by
  have h0 : ¬ (cm.max_tokens = 0) := by omega
  simp only [get_context_stats, h0, if_false, ite_false]
  refine ⟨_, rfl, ?_⟩
  have ht : (0 : Rat) < (count_message_tokens messages : Rat) := by exact_mod_cast hpos
  have hm : ((cm.max_tokens : Rat)) < 0 := by exact_mod_cast hneg
  have hdiv : (count_message_tokens messages : Rat) / (cm.max_tokens : Rat) < 0 :=
    div_neg_of_pos_of_neg ht hm
  have := mul_neg_of_neg_of_pos hdiv (by norm_num : (0 : Rat) < 100)
  simpa using this

/-- Witness for the amended C9 theorem. -/
theorem get_context_stats_no_validation_witness :
    ∃ s, get_context_stats { max_tokens := -1000 }
        [{ role := "user", content := .str "hello there" }] = .ok s ∧
      s.usage_percentage < 0 :=
  get_context_stats_no_validation _ _ (by decide) (by decide)

/-- C10: whenever a system-role message sits among the last
`keep_recent` entries of a list longer than `keep_recent`, the compacted
list contains it twice — once from the keep-all-system pass and once
from the verbatim recent tail. -/
theorem compact_messages_duplicates_recent_system (messages : List Message)
    (keep_recent : Nat) (m : Message) (hk : keep_recent ≠ 0)
    (hlen : keep_recent < messages.length)
    (hm : m ∈ recentMessages messages keep_recent) (hrole : m.role = "system") :
    ∃ l1 l2 l3, compact_messages messages keep_recent = l1 ++ m :: (l2 ++ m :: l3) := by
  rw [compact_messages, if_neg (by omega)]
  have hmem : m ∈ systemMessages messages := by
    have hmm : m ∈ messages := by
      have h := hm
      rw [recentMessages, if_neg hk] at h
      exact List.mem_of_mem_drop h
    simp [systemMessages, List.mem_filter, hmm, hrole]
  obtain ⟨s1, s2, hs⟩ := List.append_of_mem hmem
  obtain ⟨r1, r2, hr⟩ := List.append_of_mem hm
  refine ⟨s1, s2 ++ summaryMessages messages keep_recent ++ r1, r2, ?_⟩
  rw [hs, hr]
  simp [List.append_assoc]

/-- Witness for C10: eleven messages whose last entry is a system
message; compaction duplicates it. -/
theorem compact_messages_duplicates_recent_system_witness :
    ∃ l1 l2 l3,
      compact_messages
        (List.replicate 10 ({ role := "user", content := .str "hi" } : Message) ++
          [({ role := "system", content := .str "be brief" } : Message)]) 10 =
        l1 ++ ({ role := "system", content := .str "be brief" } : Message) ::
          (l2 ++ ({ role := "system", content := .str "be brief" } : Message) :: l3) :=
  compact_messages_duplicates_recent_system _ 10 _ (by decide) (by decide) (by decide) rfl

/-- C2 counterexample: a pending file todo whose confirmation the user
declines.  The status-write trace is `in_progress` then `pending`
(interactive.py lines 1929 and 1964) — an `in_progress` item is moved
back to `pending`, which the claim forbids. -/
theorem execute_action_todo_decline_cex :
    (execute_action_todo { confirm := false, commandSuccess := true, fileSuccess := true }
      { id := "action_1", content := "Create a.txt",
        metadata := some ⟨"file", .file ⟨"create", "a.txt", some "x", none⟩⟩ }).2 =
      ["in_progress", "pending"] ∧
    (execute_action_todo { confirm := false, commandSuccess := true, fileSuccess := true }
      { id := "action_1", content := "Create a.txt",
        metadata := some ⟨"file", .file ⟨"create", "a.txt", some "x", none⟩⟩ }).1.status =
      "pending" := ⟨rfl, rfl⟩

/-- C2 (amended): queue-item transitions.  A non-pending (in particular
completed or failed) item is never touched by execution.  A pending item
is written `in_progress` and then a final status that is `completed`,
`failed`, or — when the user declines the file-creation confirmation —
back to `pending`.  Skipping changes only the first pending item, to
`completed` with result "Skipped by user". -/
theorem action_todo_transitions (env : ExecEnv) (todo : TodoItem)
    (todos : List TodoItem) :
    (todo.status ≠ "pending" → execute_action_todo env todo = (todo, [])) ∧
    (todo.status = "pending" →
      (execute_action_todo env todo).2 =
        ["in_progress", (execute_action_todo env todo).1.status] ∧
      ((execute_action_todo env todo).1.status = "completed" ∨
        (execute_action_todo env todo).1.status = "failed" ∨
        ((execute_action_todo env todo).1.status = "pending" ∧ env.confirm = false))) ∧
    (∀ i : Nat, (skipFirstPending todos)[i]? = todos[i]? ∨
      ∃ t, todos[i]? = some t ∧ t.status = "pending" ∧
        (skipFirstPending todos)[i]? =
          some { t with status := "completed", result := some "Skipped by user" }) := by
  refine ⟨?_, ?_, ?_⟩
  · intro h
    rw [execute_action_todo, if_pos (by simpa using h)]
  · intro h
    rw [execute_action_todo, if_neg (by simp [h])]
    constructor
    · rfl
    · dsimp only
      cases env.raises with
      | some msg => simp
      | none =>
        cases todo.metadata with
        | none => simp [finalizeTodo]
        | some meta =>
          by_cases hc : meta.type == "command"
          · simp only [hc, if_true, ite_true, finalizeTodo]
            cases env.commandSuccess <;> simp
          · by_cases hf : meta.type == "file"
            · cases henv : env.confirm
              · simp [hc, hf, henv]
              · cases env.fileSuccess <;> simp [hc, hf, henv, finalizeTodo]
            · simp [hc, hf, finalizeTodo]
  · intro i
    induction todos generalizing i with
    | nil => left; simp [skipFirstPending]
    | cons t ts ih =>
      by_cases hp : t.status == "pending"
      · cases i with
        | zero =>
          right
          exact ⟨t, by simp, by simpa using hp, by simp [skipFirstPending, hp]⟩
        | succ j => left; simp [skipFirstPending, hp]
      · cases i with
        | zero => left; simp [skipFirstPending, hp]
        | succ j =>
          have := ih j
          simpa [skipFirstPending, hp] using this

/-- Witness for the amended C2 theorem: a completed item is untouched, a
confirmed pending file item completes, and skip marks the first pending
item "Skipped by user". -/
theorem action_todo_transitions_witness :
    (execute_action_todo { confirm := true, commandSuccess := true, fileSuccess := true }
      { id := "a1", content := "x", status := "completed" } =
      ({ id := "a1", content := "x", status := "completed" }, [])) ∧
    ((execute_action_todo { confirm := true, commandSuccess := true, fileSuccess := true }
      { id := "a2", content := "y",
        metadata := some ⟨"file", .file ⟨"create", "y.txt", some "z", none⟩⟩ }).1.status =
        "completed" ∨
      (execute_action_todo { confirm := true, commandSuccess := true, fileSuccess := true }
        { id := "a2", content := "y",
          metadata := some ⟨"file", .file ⟨"create", "y.txt", some "z", none⟩⟩ }).1.status =
        "failed" ∨
      ((execute_action_todo { confirm := true, commandSuccess := true, fileSuccess := true }
        { id := "a2", content := "y",
          metadata := some ⟨"file", .file ⟨"create", "y.txt", some "z", none⟩⟩ }).1.status =
        "pending" ∧
        ({ confirm := true, commandSuccess := true, fileSuccess := true : ExecEnv }).confirm =
          false)) ∧
    ((skipFirstPending [{ id := "a3", content := "w" }])[0]? =
        [({ id := "a3", content := "w" } : TodoItem)][0]? ∨
      ∃ t, [({ id := "a3", content := "w" } : TodoItem)][0]? = some t ∧
        t.status = "pending" ∧
        (skipFirstPending [{ id := "a3", content := "w" }])[0]? =
          some { t with status := "completed", result := some "Skipped by user" }) :=
  ⟨(action_todo_transitions { confirm := true, commandSuccess := true, fileSuccess := true }
      { id := "a1", content := "x", status := "completed" } []).1 (by decide),
   ((action_todo_transitions { confirm := true, commandSuccess := true, fileSuccess := true }
      { id := "a2", content := "y",
        metadata := some ⟨"file", .file ⟨"create", "y.txt", some "z", none⟩⟩ } []).2.1
      rfl).2,
   (action_todo_transitions { confirm := true, commandSuccess := true, fileSuccess := true }
      { id := "a0", content := "v", status := "failed" }
      [{ id := "a3", content := "w" }]).2.2 0⟩

/-- C6 counterexample: `execute_command` spawns with no timeout, so a
command whose runtime (1000 s) far exceeds the claimed 30-second budget
still produces a normal completion, not a distinct timeout failure. -/
theorem execute_command_timeout_cex :
    30 < (1000 : Nat) ∧
    runCall (execute_command_call { command := "sleep 1000" })
        { runtime := 1000, exitcode := 0, stdout := "", stderr := "" } =
      CmdOutcome.completed 0 "" "" :=
  ⟨by decide, rfl⟩

/-- C6 (amended): `execute_command` runs the command through a shell and
captures its output, but passes no `timeout` argument, so no run ever
yields a timeout failure; the fixed 30-second timeout exists only in the
separate `_execute_bash` path. -/
theorem execute_command_no_timeout (c : CommandAction) (beh : CommandBehavior) :
    (execute_command_call c).timeout = none ∧
    (execute_command_call c).shell = true ∧
    (execute_command_call c).capture_output = true ∧
    runCall (execute_command_call c) beh ≠ CmdOutcome.timedOut ∧
    (execute_bash_call c.command).timeout = some 30 := by
  refine ⟨rfl, rfl, rfl, ?_, rfl⟩
  simp [runCall, execute_command_call]

/-- C7 counterexample: a `modify` action returns failure and leaves the
filesystem untouched (the claimed write-and-succeed behaviour is
unimplemented: action_executor.py lines 311-313 are a bare `pass`). -/
theorem execute_file_action_modify_cex :
    execute_file_action "proj"
      { action_type := "modify", file_path := "proj/a.txt", content := some "new" }
      { files := [("proj/a.txt", "old")], dirs := [] } =
      (false, { files := [("proj/a.txt", "old")], dirs := [] }) := rfl

/-- C7 (amended): the ensure-parents-then-overwrite-and-succeed
behaviour belongs to `create` only; for `modify` the executor is an
unimplemented stub that returns failure and performs no write. -/
theorem execute_file_action_create_modify (root : String) (a : FileAction) (st : FSState) :
    (a.action_type = "modify" → execute_file_action root a st = (false, st)) ∧
    (a.action_type = "create" → isRelativeTo root a.file_path = true →
      (execute_file_action root a st).1 = true ∧
      lookupFile (execute_file_action root a st).2 a.file_path =
        some (a.content.getD "") ∧
      parentDir a.file_path ∈ (execute_file_action root a st).2.dirs) := by
  constructor
  · intro h
    rw [execute_file_action, if_neg (by simp [h])]
  · intro h hrel
    rw [execute_file_action]
    simp only [h, beq_self_eq_true, if_true, ite_true, hrel]
    refine ⟨?_, ?_, ?_⟩
    · trivial
    · simp [lookupFile, writeFile, List.find?]
    · simp [writeFile]

/-- Witness for the amended C7 theorem. -/
theorem execute_file_action_create_modify_witness :
    (execute_file_action "proj"
      { action_type := "modify", file_path := "proj/b.txt", content := some "n" }
      { files := [], dirs := [] } =
      (false, { files := [], dirs := [] })) ∧
    ((execute_file_action "proj"
        { action_type := "create", file_path := "proj/sub/c.txt", content := some "body" }
        { files := [], dirs := [] }).1 = true ∧
      lookupFile (execute_file_action "proj"
        { action_type := "create", file_path := "proj/sub/c.txt", content := some "body" }
        { files := [], dirs := [] }).2 "proj/sub/c.txt" = some "body" ∧
      parentDir "proj/sub/c.txt" ∈ (execute_file_action "proj"
        { action_type := "create", file_path := "proj/sub/c.txt", content := some "body" }
        { files := [], dirs := [] }).2.dirs) :=
  ⟨(execute_file_action_create_modify "proj"
      { action_type := "modify", file_path := "proj/b.txt", content := some "n" }
      { files := [], dirs := [] }).1 rfl,
   by
    have h := (execute_file_action_create_modify "proj"
      { action_type := "create", file_path := "proj/sub/c.txt", content := some "body" }
      { files := [], dirs := [] }).2 rfl (by decide)
    simpa using h⟩

/-- C1: both action-extraction entry points can raise.
`ActionExecutor.extract_actions_from_response` references the undefined
global `logger` before any matching, so every call — here the empty
response — raises `NameError`.  `StructuredActionParser.extract_actions`
calls `.strip()` on the `None` text of an empty `<content>` element, an
`AttributeError` that no handler catches. -/
theorem extract_entry_points_crash :
    extract_actions_from_response "" = .error (.nameError "logger") ∧
    extract_actions
      "<actions><action type=\"file\"><description>d</description><path>a.txt</path><content></content></action></actions>" =
      .error (.attributeError "NoneType object has no attribute strip") := ⟨rfl, rfl⟩

/-- C8 counterexample: the literal text of the `<content>` element is
`" x "`, but the returned file action carries `"x"` — the
`.strip()` at structured_action_parser.py line 73 removes the leading
and trailing whitespace, so content is not preserved verbatim. -/
theorem content_not_verbatim_cex :
    extract_actions
      "<actions><action type=\"file\"><description>d</description><path>p.txt</path><content> x </content></action></actions>" =
      .ok ([⟨"file", some "d", .file (some "p.txt") "x"⟩], placeholderText) ∧
    ("x" : String) ≠ " x " := ⟨rfl, by decide⟩

/-- C8 (amended): the content of an extracted file action equals the
literal text of its `<content>` element with leading and trailing
whitespace stripped (`.strip()`), interior whitespace and special
characters preserved: for every element text `t`, the action walk over
the parsed tree yields content `pyStrip t`.  End to end, a content of
`" x\ty "` comes back as `"x\ty"` — the interior tab survives, the
outer spaces do not. -/
theorem content_stripped_not_verbatim (d p t : String) :
    walkActions
      ⟨"actions", [], none,
        [⟨"action", [("type", "file")], none,
          [⟨"description", [], some d, []⟩,
           ⟨"path", [], some p, []⟩,
           ⟨"content", [], some t, []⟩]⟩]⟩ =
      .ok [⟨"file", some d, .file (some p) (pyStrip t)⟩] ∧
    extract_actions
      "<actions><action type=\"file\"><description>d</description><path>p.txt</path><content> x\ty </content></action></actions>" =
      .ok ([⟨"file", some "d", .file (some "p.txt") "x\ty"⟩], placeholderText) :=
  ⟨rfl, rfl⟩

/-- C3 counterexample: in
`"pre <actions><action></actions> post"` the regex does match the outer
block (first conjunct), but because its inner XML is malformed the
placeholder replacement on structured_action_parser.py line 77 is never
reached (`continue` on line 81 skips it), so the returned remaining text
still contains the block verbatim — it is neither removed nor replaced. -/
theorem malformed_block_not_removed_cex :
    findBlocks (("pre <actions><action></actions> post".toList).length + 1)
        "pre <actions><action></actions> post".toList =
      [("<actions><action></actions>".toList, "<action>".toList)] ∧
    extract_actions "pre <actions><action></actions> post" =
      .ok ([], "pre <actions><action></actions> post") := ⟨by decide, rfl⟩

/-- C3 (amended): for every response, the returned remaining text is the
response transformed by exactly one all-occurrence placeholder
replacement per matched block whose inner XML parses successfully, in
match order, followed by the final global strip (first conjunct,
refinement against `applyReplacements`/`parsedGroups`).  A matched block
whose inner XML fails to parse contributes no actions and triggers no
replacement of its own: when no matched block parses, the remaining text
is the response unchanged apart from the final strip (second conjunct).
A malformed match's text is only rewritten insofar as a later
successfully parsed match's text occurs inside it, which that match's
all-occurrence replace also rewrites — exhibited by the third,
end-to-end conjunct, where the malformed first match
`<actions>Y<actions>...</actions>` keeps its `<actions>Y` prefix but has
its embedded well-formed block text replaced. -/
theorem extract_actions_replacement_semantics :
    (∀ cs acts rem, extractActionsCore cs = .ok (acts, rem) →
      findBlocks (cs.length + 1) cs ≠ [] →
      rem = stripChars (applyReplacements cs
        (parsedGroups (findBlocks (cs.length + 1) cs)))) ∧
    (∀ cs, (∀ m ∈ findBlocks (cs.length + 1) cs, blockParses m = false) →
      extractActionsCore cs =
        .ok ([], if findBlocks (cs.length + 1) cs = [] then cs else stripChars cs)) ∧
    extract_actions
      "<actions>Y<actions><action type=\"command\"><command>ls</command></action></actions><actions><action type=\"command\"><command>ls</command></action></actions>" =
      .ok ([⟨"command", some "", .command (some "ls")⟩],
        "<actions>Y[Actions hidden - see action queue below][Actions hidden - see action queue below]") := by
  refine ⟨?_, ?_, rfl⟩
  · intro cs acts rem h hne
    rw [extractActionsCore] at h
    cases hfb : findBlocks (cs.length + 1) cs with
    | nil => exact absurd hfb hne
    | cons m ms =>
      rw [hfb] at h
      dsimp only at h
      cases hpb : processBlocks (m :: ms) ([], cs) with
      | error e =>
        rw [hpb] at h
        exact absurd h (by simp)
      | ok p =>
        obtain ⟨a, r⟩ := p
        rw [hpb] at h
        dsimp only at h
        have hr : rem = stripChars r := by
          injection h with h1
          injection h1 with ha hr
          exact hr.symm
        rw [hr, processBlocks_remaining (m :: ms) ([], cs) a r hpb]
  · intro cs hall
    cases hfb : findBlocks (cs.length + 1) cs with
    | nil =>
      rw [extractActionsCore, hfb]
      simp
    | cons m ms =>
      rw [hfb] at hall
      rw [extractActionsCore, hfb]
      dsimp only
      rw [processBlocks_all_malformed (m :: ms) ([], cs) hall]
      simp

/-- Witness for the amended C3 theorem: the replacement characterization
at a response with one well-formed block in prose context, and the
no-replacement case at a response whose only matched block is
malformed. -/
theorem extract_actions_replacement_semantics_witness :
    "x [Actions hidden - see action queue below] y".toList =
      stripChars (applyReplacements
        "x <actions><action type=\"command\"><command>ls</command></action></actions> y".toList
        (parsedGroups (findBlocks
          (("x <actions><action type=\"command\"><command>ls</command></action></actions> y".toList).length + 1)
          "x <actions><action type=\"command\"><command>ls</command></action></actions> y".toList))) ∧
    extractActionsCore "pre <actions><action></actions> post".toList =
      .ok ([], if findBlocks (("pre <actions><action></actions> post".toList).length + 1)
            "pre <actions><action></actions> post".toList = [] then
          "pre <actions><action></actions> post".toList
        else stripChars "pre <actions><action></actions> post".toList) :=
  ⟨extract_actions_replacement_semantics.1
      "x <actions><action type=\"command\"><command>ls</command></action></actions> y".toList
      [⟨"command", some "", .command (some "ls")⟩]
      "x [Actions hidden - see action queue below] y".toList rfl (by decide),
   extract_actions_replacement_semantics.2.1
      "pre <actions><action></actions> post".toList (by decide)⟩

/-- C4: on the claimed scenario (a `### app.py` heading directly
followed by a fenced python block), `extract_actions_from_response` does
not return the claimed `FileAction` — it raises `NameError` on the
undefined `logger`.  Moreover every extracted code block carries
`line_number = none` (never assigned), so the header-proximity pairing
`block_line > i` would compare `None` with an int and raise `TypeError`
even if the logging fault were fixed. -/
theorem scenario_b_crash :
    extract_actions_from_response "### app.py\n```python\nx = 1\n```" =
      .error (.nameError "logger") ∧
    (extract_code_blocks "### app.py\n```python\nx = 1\n```").map
        (fun b => b.line_number) = [none] := ⟨rfl, rfl⟩

end SteveCode
